import Mathlib

/-!
Shallow embedding of the sentiment-classifier evaluation harness
(`src/main.py` and `src/analysis.py`), together with theorems settling the
specification claims about it.

File I/O is modelled by passing the file's lines as a `List String`; Python
exceptions (`ValueError` from the `Labels` enum constructor, `IndexError`
from out-of-range list indexing, `KeyError` from dictionary lookup, numpy's
`ValueError` on empty reductions) are modelled by `Except`/`Option` results.
Floating-point scores are modelled as rationals.
-/

deriving instance DecidableEq for Except

namespace SentimentEval

/-- Python's `str.strip()`: remove leading and trailing whitespace. -/
def pyStrip (s : String) : String :=
  ⟨((s.data.dropWhile Char.isWhitespace).reverse.dropWhile Char.isWhitespace).reverse⟩

/-- Python's `str.lower()`: lowercase every character. -/
def pyLower (s : String) : String :=
  ⟨s.data.map Char.toLower⟩

/-- The `Labels` enum of `main.py` (three canonical sentiment values). -/
inductive Labels where
  | POSITIVE
  | NEGATIVE
  | NEUTRAL
deriving DecidableEq, Repr

/-- Python exceptions raised by the harness's core functions. -/
inductive PyErr where
  | valueError
  | indexError
deriving DecidableEq, Repr

/-- The `Labels(label)` enum constructor call in `check_labels`
(`main.py:33`): succeeds exactly on the three member values, raises
`ValueError` otherwise. -/
def Labels.ofString (s : String) : Except PyErr Labels :=
  if s = "positive" then .ok .POSITIVE
  else if s = "negative" then .ok .NEGATIVE
  else if s = "neutral" then .ok .NEUTRAL
  else .error .valueError

/-- Embedding of `check_labels` (`main.py:19-36`): converts each label through the
`Labels` enum (raising `ValueError` on a non-member), returns `False` if the
converted value is none of the three members, `True` once the loop ends. -/
def check_labels : List String → Except PyErr Bool
  | [] => .ok true
  | l :: rest =>
    match Labels.ofString l with
    | .error e => .error e
    | .ok lab =>
      if lab ≠ .POSITIVE ∧ lab ≠ .NEGATIVE ∧ lab ≠ .NEUTRAL then
        .ok false
      else
        check_labels rest

/-- One element of the readable-predictions list built by
`convert_to_readable`: `{'text': ..., 'label': ..., 'confidence': ...}`. -/
structure ReadableRec where
  text : String
  label : String
  confidence : ℚ
deriving DecidableEq, Repr

/-- The gold-file preprocessing comprehension in `count_metrics`
(`main.py:57`): `[line.strip().lower() for line in file.readlines() if line.strip()]`. -/
def preprocessGold (lines : List String) : List String :=
  (lines.filter (fun l => pyStrip l != "")).map (fun l => pyLower (pyStrip l))

/-- The scoring loop of `count_metrics` (`main.py:62-70`): iterates the gold
lines with index `i`, accesses `data[i]` (raising `IndexError` when out of
range) and counts exact string matches between gold label and prediction. -/
def countLoop (data : List ReadableRec) : List String → Nat → Except PyErr Nat
  | [], _ => .ok 0
  | label :: rest, i =>
    match data[i]? with
    | none => .error .indexError
    | some r =>
      match countLoop data rest (i + 1) with
      | .error e => .error e
      | .ok c => .ok (if label = r.label then c + 1 else c)

/-- Embedding of `count_metrics` (`main.py:38-72`): preprocesses the gold-file lines,
validates them with `check_labels` (raising `ValueError` on failure), then
runs the index-aligned match-counting loop. -/
def count_metrics (goldLines : List String) (data : List ReadableRec) :
    Except PyErr Nat :=
  let lines := preprocessGold goldLines
  match check_labels lines with
  | .error e => .error e
  | .ok ok =>
    if ok then countLoop data lines 0
    else .error .valueError

/-- The accuracy computation in `sentiment_classification`
(`main.py:148-149`): `good_preds_count / len(readable_predicts)` when the
readable-predictions list is non-empty, `0` otherwise. -/
def accuracy (goldLines : List String) (readable_predicts : List ReadableRec) :
    Except PyErr ℚ :=
  match count_metrics goldLines readable_predicts with
  | .error e => .error e
  | .ok good =>
    .ok (if readable_predicts.isEmpty then 0
         else (good : ℚ) / readable_predicts.length)

/-- One raw classifier prediction `{'label': 'n star(s)', 'score': x}`. -/
structure RawPred where
  label : String
  score : ℚ
deriving DecidableEq, Repr

/-- The `star_to_sentiment` dictionary lookup in `convert_to_readable`
(`main.py:90-104`); a key outside the five star tokens raises `KeyError`,
modelled as `none`. -/
def star_to_sentiment (s : String) : Option String :=
  if s = "1 star" then some ("negative")
  else if s = "2 stars" then some ("negative")
  else if s = "3 stars" then some ("neutral")
  else if s = "4 stars" then some ("positive")
  else if s = "5 stars" then some ("positive")
  else none

/-- Floor of a rational as an integer (computable, kernel-reducible). -/
def ratFloor (q : ℚ) : ℤ := q.num.fdiv q.den

/-- Python's `round(x, 4)` on the score, modelled on rationals: round half
to even at the fourth decimal. -/
def roundHalfEven (q : ℚ) : ℤ :=
  let f := ratFloor q
  let r := q - f
  if r < 1 / 2 then f
  else if r > 1 / 2 then f + 1
  else if f % 2 = 0 then f else f + 1

/-- The rounded confidence `round(score, 4)` from `main.py:105`. -/
def round4 (q : ℚ) : ℚ := (roundHalfEven (q * 10000) : ℚ) / 10000

/-- Embedding of `convert_to_readable` (`main.py:75-108`): walks `zip(texts, predicts)`
in order (stopping at the shorter list), maps each star label through the
`star_to_sentiment` dictionary (a `KeyError`, modelled as `none`, aborts the
whole call) and builds the readable record for each pair. -/
def convert_to_readable : List RawPred → List String → Option (List ReadableRec)
  | p :: ps, t :: ts =>
    match star_to_sentiment p.label with
    | none => none
    | some lab =>
      match convert_to_readable ps ts with
      | none => none
      | some rest => some (⟨t, lab, round4 p.score⟩ :: rest)
  | _, _ => some []

/-- The `star_to_number` dictionary in `analyze_predictions_distribution`
(`analysis.py:33-35`); missing key raises `KeyError`, modelled as `none`. -/
def star_to_number (s : String) : Option Nat :=
  if s = "1 star" then some 1
  else if s = "2 stars" then some 2
  else if s = "3 stars" then some 3
  else if s = "4 stars" then some 4
  else if s = "5 stars" then some 5
  else none

/-- The `star_to_sentiment` dictionary in `analyze_predictions_distribution`
(`analysis.py:39-43`). -/
def analysis_star_to_sentiment (s : String) : Option String :=
  if s = "1 star" then some ("negative")
  else if s = "2 stars" then some ("negative")
  else if s = "3 stars" then some ("neutral")
  else if s = "4 stars" then some ("positive")
  else if s = "5 stars" then some ("positive")
  else none

/-- Insertion of a value into an ascending list (helper for modelling
Python's `sorted`). -/
def insertSorted (x : Nat) : List Nat → List Nat
  | [] => [x]
  | y :: ys => if x ≤ y then x :: y :: ys else y :: insertSorted x ys

/-- Python's `sorted` on a list of naturals (insertion sort). -/
def sortKeys : List Nat → List Nat
  | [] => []
  | x :: xs => insertSorted x (sortKeys xs)

/-- The per-star breakdown built in `_create_plots` (`analysis.py:76-78`)
and `_print_statistics` (`analysis.py:130,137-140`):
`sorted(Counter(numeric_scores).keys())` paired with each key's count —
only star values that actually occur appear. -/
def byStar (numeric_scores : List Nat) : List (Nat × Nat) :=
  (sortKeys numeric_scores.dedup).map (fun s => (s, numeric_scores.count s))

/-- The per-category breakdown built in `_create_plots`
(`analysis.py:93-96`) and `_print_statistics` (`analysis.py:143-147`): the
fixed list `['negative', 'neutral', 'positive']` paired with each
category's count (`Counter` yields `0` for absent keys). -/
def byCategory (categories : List String) : List (String × Nat) :=
  [("negative", categories.count ("negative")),
   ("neutral", categories.count ("neutral")),
   ("positive", categories.count ("positive"))]

/-- The data computed by `analyze_predictions_distribution`
(`analysis.py:7-50`): numeric scores and categories via the two dictionary
lookups (a `KeyError` aborts), then the star and category breakdowns. -/
def analyze_predictions_distribution (predicts : List RawPred) :
    Option (List (Nat × Nat) × List (String × Nat)) :=
  let star_predictions := predicts.map (·.label)
  match star_predictions.mapM star_to_number with
  | none => none
  | some numeric_scores =>
    match star_predictions.mapM analysis_star_to_sentiment with
    | none => none
    | some categories => some (byStar numeric_scores, byCategory categories)

/-- Insertion of a rational into an ascending list. -/
def insertSortedRat (x : ℚ) : List ℚ → List ℚ
  | [] => [x]
  | y :: ys => if x ≤ y then x :: y :: ys else y :: insertSortedRat x ys

/-- Ascending sort on rationals (helper for the median). -/
def sortRat : List ℚ → List ℚ
  | [] => []
  | x :: xs => insertSortedRat x (sortRat xs)

/-- Numpy `np.mean`: arithmetic mean; on an empty array numpy yields `nan`,
which has no rational value and is modelled as `none`. -/
def np_mean (xs : List ℚ) : Option ℚ :=
  if xs.isEmpty then none else some (xs.sum / xs.length)

/-- Numpy `np.median`: middle element of the sorted data (average of the two
middle elements for even length); `nan` on empty input, modelled `none`. -/
def np_median (xs : List ℚ) : Option ℚ :=
  if xs.isEmpty then none
  else
    let s := sortRat xs
    let n := xs.length
    if n % 2 = 1 then some (s.getD (n / 2) 0)
    else some ((s.getD (n / 2 - 1) 0 + s.getD (n / 2) 0) / 2)

/-- Numpy `np.min`: raises `ValueError` on a zero-size array, modelled `none`. -/
def np_min (xs : List ℚ) : Option ℚ :=
  match xs with
  | [] => none
  | x :: rest => some (rest.foldl min x)

/-- Numpy `np.max`: raises `ValueError` on a zero-size array, modelled `none`. -/
def np_max (xs : List ℚ) : Option ℚ :=
  match xs with
  | [] => none
  | x :: rest => some (rest.foldl max x)

/-- The four descriptive statistics printed by `analyze_confidence_scores`. -/
structure ConfStats where
  mean : ℚ
  median : ℚ
  min : ℚ
  max : ℚ
deriving DecidableEq, Repr

/-- Embedding of `analyze_confidence_scores` (`analysis.py:154-187`): extracts the
`score` field of every prediction and computes mean, median, min and max
over it; on an empty batch numpy produces `nan` for mean/median and raises
`ValueError` at `np.min`, so no statistics value is produced (`none`). -/
def analyze_confidence_scores (predicts : List RawPred) : Option ConfStats :=
  let scores := predicts.map (·.score)
  match np_mean scores, np_median scores, np_min scores, np_max scores with
  | some m, some md, some mn, some mx => some ⟨m, md, mn, mx⟩
  | _, _, _, _ => none

/-- Spec-side match count (claim C2's wording): the number of indices `i`
with `records[i].label == gold[i]`, expressed as a count over the zipped
lists. -/
def specMatchCount (gold : List String) (records : List ReadableRec) : Nat :=
  (gold.zip records).countP (fun p => p.1 == p.2.label)

/-- Spec-side accuracy (claim C2's wording): matches divided by
`len(records)`, and `0` for empty records. -/
def specAccuracy (gold : List String) (records : List ReadableRec) : ℚ :=
  if records.length = 0 then 0
  else (specMatchCount gold records : ℚ) / records.length

theorem check_labels_ok_of_valid :
    ∀ lines : List String,
      (∀ l ∈ lines, l = "positive" ∨ l = "negative" ∨ l = "neutral") →
      check_labels lines = .ok true := by
  intro lines h
  induction lines with
  | nil => rfl
  | cons l rest ih =>
    have hl := h l (List.mem_cons_self l rest)
    have hrest := ih (fun x hx => h x (List.mem_cons_of_mem l hx))
    rcases hl with h1 | h1 | h1 <;> subst h1 <;>
      simp [check_labels, Labels.ofString, hrest]

theorem check_labels_error_of_invalid :
    ∀ lines : List String,
      (∃ l ∈ lines, ¬(l = "positive" ∨ l = "negative" ∨ l = "neutral")) →
      check_labels lines = .error .valueError := by
  intro lines h
  induction lines with
  | nil => rcases h with ⟨l, hl, _⟩; cases hl
  | cons l rest ih =>
    rcases h with ⟨x, hx, hbad⟩
    rcases List.mem_cons.mp hx with rfl | hx'
    · push_neg at hbad
      obtain ⟨h1, h2, h3⟩ := hbad
      simp [check_labels, Labels.ofString, h1, h2, h3]
    · by_cases hl : l = "positive" ∨ l = "negative" ∨ l = "neutral"
      · have hrest := ih ⟨x, hx', hbad⟩
        rcases hl with h1 | h1 | h1 <;> subst h1 <;>
          simp [check_labels, Labels.ofString, hrest]
      · push_neg at hl
        obtain ⟨h1, h2, h3⟩ := hl
        simp [check_labels, Labels.ofString, h1, h2, h3]

theorem check_labels_ok_or_error :
    ∀ lines : List String,
      check_labels lines = .ok true ∨ check_labels lines = .error .valueError := by
  intro lines
  by_cases h : ∀ l ∈ lines, l = "positive" ∨ l = "negative" ∨ l = "neutral"
  · exact Or.inl (check_labels_ok_of_valid lines h)
  · push_neg at h
    obtain ⟨x, hx, hbad⟩ := h
    exact Or.inr (check_labels_error_of_invalid lines ⟨x, hx, by push_neg; exact hbad⟩)

theorem countLoop_spec :
    ∀ (lines : List String) (data : List ReadableRec) (i : Nat),
      i + lines.length ≤ data.length →
      countLoop data lines i = .ok (specMatchCount lines (data.drop i)) := by
  intro lines
  induction lines with
  | nil => intro data i _; simp [countLoop, specMatchCount]
  | cons label rest ih =>
    intro data i h
    have hi : i < data.length := by simp at h; omega
    have hrest : countLoop data rest (i + 1) = .ok (specMatchCount rest (data.drop (i + 1))) := by
      apply ih; simp at h ⊢; omega
    have hget : data[i]? = some data[i] := List.getElem?_eq_getElem hi
    have hdrop : data.drop i = data[i] :: data.drop (i + 1) := List.drop_eq_getElem_cons hi
    rw [countLoop, hget, hrest, hdrop]
    simp only [specMatchCount, List.zip_cons_cons, List.countP_cons]
    by_cases hlab : label = data[i].label
    · simp [specMatchCount, hlab]
    · simp [specMatchCount, hlab]

theorem count_metrics_spec :
    ∀ (goldLines : List String) (records : List ReadableRec),
      (∀ l ∈ preprocessGold goldLines,
        l = "positive" ∨ l = "negative" ∨ l = "neutral") →
      (preprocessGold goldLines).length ≤ records.length →
      count_metrics goldLines records =
        .ok (specMatchCount (preprocessGold goldLines) records) := by
  intro goldLines records hvalid hlen
  rw [count_metrics, check_labels_ok_of_valid _ hvalid]
  simpa using countLoop_spec (preprocessGold goldLines) records 0 (by simpa using hlen)

theorem star_to_sentiment_isSome_of_mem :
    ∀ s : String, s ∈ ["1 star", "2 stars", "3 stars", "4 stars", "5 stars"] →
      ∃ lab, star_to_sentiment s = some lab := by
  intro s hs
  fin_cases hs <;> exact ⟨_, rfl⟩

theorem mem_insertSorted :
    ∀ (x a : Nat) (l : List Nat), x ∈ insertSorted a l ↔ x = a ∨ x ∈ l := by
  intro x a l
  induction l with
  | nil => simp [insertSorted]
  | cons y ys ih =>
    by_cases h : a ≤ y
    · simp [insertSorted, h]
    · simp only [insertSorted, if_neg h, List.mem_cons, ih]
      tauto

theorem mem_sortKeys : ∀ (x : Nat) (l : List Nat), x ∈ sortKeys l ↔ x ∈ l := by
  intro x l
  induction l with
  | nil => simp [sortKeys]
  | cons y ys ih => simp [sortKeys, mem_insertSorted, ih]

theorem byStar_fst :
    ∀ ns : List Nat, (byStar ns).map Prod.fst = sortKeys ns.dedup := by
  intro ns
  simp [byStar, List.map_map, Function.comp_def]

/-- Claim C2: for equal-length canonical records and validated gold labels,
the accuracy operation returns the exact-match count divided by the number
of records, and `0` when both are empty. -/
theorem accuracy_matches_spec_on_aligned_inputs :
    ∀ (goldLines : List String) (records : List ReadableRec),
      (∀ l ∈ preprocessGold goldLines,
        l = "positive" ∨ l = "negative" ∨ l = "neutral") →
      (preprocessGold goldLines).length = records.length →
      accuracy goldLines records =
        .ok (specAccuracy (preprocessGold goldLines) records) := by
  intro goldLines records hvalid hlen
  rw [accuracy, count_metrics_spec goldLines records hvalid (le_of_eq hlen)]
  cases records with
  | nil => simp [specAccuracy]
  | cons r rs => simp [specAccuracy]

theorem accuracy_matches_spec_witness :
    accuracy ["positive"] [⟨"t", "positive", 1⟩] =
      .ok (specAccuracy (preprocessGold ["positive"]) [⟨"t", "positive", 1⟩]) :=
  accuracy_matches_spec_on_aligned_inputs ["positive"] [⟨"t", "positive", 1⟩]
    (by decide) (by decide)

/-- Claim C4: a gold batch containing any line outside the three canonical
labels (after trimming and lowercasing) makes `count_metrics` fail with the
`ValueError` raised through the `Labels` enum; no prefix is scored. -/
theorem count_metrics_rejects_invalid_gold_batch :
    ∀ (goldLines : List String) (records : List ReadableRec),
      (∃ l ∈ preprocessGold goldLines,
        ¬(l = "positive" ∨ l = "negative" ∨ l = "neutral")) →
      count_metrics goldLines records = .error .valueError := by
  intro goldLines records h
  rw [count_metrics, check_labels_error_of_invalid _ h]

theorem count_metrics_rejects_invalid_gold_batch_witness :
    count_metrics ["positive", "neutrall", "negative"] [⟨"t", "positive", 1⟩] =
      .error .valueError :=
  count_metrics_rejects_invalid_gold_batch
    ["positive", "neutrall", "negative"] [⟨"t", "positive", 1⟩]
    ⟨"neutrall", by decide, by decide⟩

/-- Claim C10: `check_labels` either returns `True` (every element
canonical) or propagates the `ValueError` of the `Labels` constructor (some
element is not); the `False`-returning branch is unreachable. -/
theorem check_labels_true_or_value_error :
    ∀ labels : List String,
      (check_labels labels = .ok true ∨
        check_labels labels = .error .valueError) ∧
      check_labels labels ≠ .ok false ∧
      ((∀ l ∈ labels, l = "positive" ∨ l = "negative" ∨ l = "neutral") →
        check_labels labels = .ok true) ∧
      ((∃ l ∈ labels, ¬(l = "positive" ∨ l = "negative" ∨ l = "neutral")) →
        check_labels labels = .error .valueError) := by
  intro labels
  refine ⟨check_labels_ok_or_error labels, ?_,
    check_labels_ok_of_valid labels, check_labels_error_of_invalid labels⟩
  intro hfalse
  rcases check_labels_ok_or_error labels with h | h <;> rw [hfalse] at h <;> cases h

theorem check_labels_true_or_value_error_witness :
    check_labels ["neutrall"] = .error .valueError :=
  (check_labels_true_or_value_error ["neutrall"]).2.2.2
    ⟨"neutrall", by decide, by decide⟩

/-- Claim C3: the star-token mapping sends 1-2 stars to negative, 3 stars
to neutral, 4-5 stars to positive, fails (`KeyError`, modelled `none`) on
any other input, and the dictionary in `analysis.py` agrees with it. -/
theorem star_to_sentiment_partition :
    star_to_sentiment ("1 star") = some ("negative") ∧
    star_to_sentiment ("2 stars") = some ("negative") ∧
    star_to_sentiment ("3 stars") = some ("neutral") ∧
    star_to_sentiment ("4 stars") = some ("positive") ∧
    star_to_sentiment ("5 stars") = some ("positive") ∧
    (∀ s : String, s ≠ "1 star" → s ≠ "2 stars" → s ≠ "3 stars" →
      s ≠ "4 stars" → s ≠ "5 stars" → star_to_sentiment s = none) ∧
    (∀ s : String, analysis_star_to_sentiment s = star_to_sentiment s) := by
  refine ⟨rfl, rfl, rfl, rfl, rfl, ?_, fun s => rfl⟩
  intro s h1 h2 h3 h4 h5
  simp [star_to_sentiment, h1, h2, h3, h4, h5]

theorem star_to_sentiment_partition_witness :
    star_to_sentiment ("6 stars") = none :=
  star_to_sentiment_partition.2.2.2.2.2.1 ("6 stars")
    (by decide) (by decide) (by decide) (by decide) (by decide)

/-- Claim C5: when the gold file has more (preprocessed) lines than there
are prediction records, `count_metrics` raises `IndexError` by indexing
past the end of the prediction list. -/
theorem count_metrics_raises_index_error :
    ∃ (goldLines : List String) (records : List ReadableRec),
      records.length < (preprocessGold goldLines).length ∧
      count_metrics goldLines records = .error .indexError :=
  ⟨["positive", "negative"], [⟨"a", "positive", 1⟩], by decide, by decide⟩

/-- Claim C6: confidence aggregation on an empty batch produces no
statistics value: numpy yields `nan` for mean/median and raises
`ValueError` at `np.min`, modelled as `none`. -/
theorem analyze_confidence_scores_empty_fails :
    analyze_confidence_scores [] = none := rfl

/-- Claim C1 (failing input): with two records and one gold line,
`count_metrics` silently scores the one-element prefix and the evaluator
returns the partial accuracy `1/2` instead of failing with an alignment
error. -/
theorem accuracy_partial_on_shorter_gold :
    accuracy ["positive"] [⟨"a", "positive", 1⟩, ⟨"b", "negative", 1⟩] =
      .ok (1 / 2) := by
  have h : count_metrics ["positive"]
      [⟨"a", "positive", 1⟩, ⟨"b", "negative", 1⟩] = .ok 1 := by decide
  rw [accuracy, h]
  norm_num

/-- Claim C7: on equal-length texts and star-token predictions,
`convert_to_readable` returns a same-length list whose i-th record carries
the i-th text, the mapped sentiment of the i-th prediction's label, and the
i-th score rounded to four decimals, in input order. -/
theorem convert_to_readable_pointwise :
    ∀ (predicts : List RawPred) (texts : List String),
      texts.length = predicts.length →
      (∀ p ∈ predicts,
        p.label ∈ ["1 star", "2 stars", "3 stars", "4 stars", "5 stars"]) →
      ∃ res, convert_to_readable predicts texts = some res ∧
        res.length = texts.length ∧
        ∀ (i : Nat) (hi : i < texts.length) (hp : i < predicts.length)
          (hr : i < res.length),
          (res.get ⟨i, hr⟩).text = texts.get ⟨i, hi⟩ ∧
          star_to_sentiment (predicts.get ⟨i, hp⟩).label =
            some ((res.get ⟨i, hr⟩).label) ∧
          (res.get ⟨i, hr⟩).confidence =
            round4 (predicts.get ⟨i, hp⟩).score := by
  intro predicts
  induction predicts with
  | nil =>
    intro texts hlen _
    have htex : texts = [] := List.length_eq_zero.mp hlen
    subst htex
    exact ⟨[], rfl, rfl, fun i hi _ _ => absurd hi (by simp)⟩
  | cons p ps ih =>
    intro texts hlen hmem
    cases texts with
    | nil => simp at hlen
    | cons t ts =>
      obtain ⟨lab, hlab⟩ :=
        star_to_sentiment_isSome_of_mem p.label (hmem p (List.mem_cons_self p ps))
      obtain ⟨res', hconv', hlen', hpt'⟩ :=
        ih ts (by simpa using hlen) (fun q hq => hmem q (List.mem_cons_of_mem p hq))
      refine ⟨⟨t, lab, round4 p.score⟩ :: res', ?_, by simp [hlen'], ?_⟩
      · rw [convert_to_readable, hlab, hconv']
      · intro i hi hp' hr
        cases i with
        | zero => exact ⟨rfl, hlab, rfl⟩
        | succ j =>
          exact hpt' j (Nat.lt_of_succ_lt_succ hi) (Nat.lt_of_succ_lt_succ hp')
            (Nat.lt_of_succ_lt_succ hr)

theorem convert_to_readable_pointwise_witness :
    ∃ res,
      convert_to_readable [⟨"5 stars", 1⟩, ⟨"1 star", 1⟩] ["good", "bad"] =
        some res ∧
      res.length = (["good", "bad"] : List String).length ∧
      ∀ (i : Nat) (hi : i < (["good", "bad"] : List String).length)
        (hp : i < ([⟨"5 stars", 1⟩, ⟨"1 star", 1⟩] : List RawPred).length)
        (hr : i < res.length),
        (res.get ⟨i, hr⟩).text = (["good", "bad"] : List String).get ⟨i, hi⟩ ∧
        star_to_sentiment
            (([⟨"5 stars", 1⟩, ⟨"1 star", 1⟩] : List RawPred).get ⟨i, hp⟩).label =
          some ((res.get ⟨i, hr⟩).label) ∧
        (res.get ⟨i, hr⟩).confidence =
          round4 (([⟨"5 stars", 1⟩, ⟨"1 star", 1⟩] : List RawPred).get ⟨i, hp⟩).score :=
  convert_to_readable_pointwise [⟨"5 stars", 1⟩, ⟨"1 star", 1⟩] ["good", "bad"]
    (by decide) (by decide)

/-- Claim C9: the gold-file preprocessing drops every line that is blank
after trimming and turns every other line into its trimmed, lowercased
form, in order. -/
theorem preprocess_gold_drops_blanks_maps_rest :
    (∀ (pre post : List String) (b : String), pyStrip b = "" →
      preprocessGold (pre ++ b :: post) = preprocessGold (pre ++ post)) ∧
    (∀ (pre post : List String) (l : String), pyStrip l ≠ "" →
      preprocessGold (pre ++ l :: post) =
        preprocessGold pre ++ pyLower (pyStrip l) :: preprocessGold post) := by
  constructor
  · intro pre post b hb
    simp [preprocessGold, List.filter_append, List.map_append, List.filter_cons, hb]
  · intro pre post l hl
    simp [preprocessGold, List.filter_append, List.map_append, List.filter_cons, hl]

theorem preprocess_gold_drops_blanks_maps_rest_witness :
    preprocessGold (["POSITIVE "] ++ "  " :: ["neutral"]) =
      preprocessGold (["POSITIVE "] ++ ["neutral"]) :=
  preprocess_gold_drops_blanks_maps_rest.1 ["POSITIVE "] ["neutral"] "  " (by decide)

/-- Claim C8: for a non-empty batch, the category breakdown lists exactly
the three fixed categories (zero counts included) while the star breakdown
lists exactly the star values that occur in the batch. -/
theorem distribution_breakdowns :
    ∀ (predicts : List RawPred) (ns : List Nat) (cs : List String),
      predicts ≠ [] →
      (predicts.map (fun p => p.label)).mapM star_to_number = some ns →
      (predicts.map (fun p => p.label)).mapM analysis_star_to_sentiment = some cs →
      analyze_predictions_distribution predicts =
        some (byStar ns, byCategory cs) ∧
      (byCategory cs).map Prod.fst = ["negative", "neutral", "positive"] ∧
      ∀ s, s ∈ (byStar ns).map Prod.fst ↔ s ∈ ns := by
  intro predicts ns cs _ h1 h2
  refine ⟨?_, rfl, ?_⟩
  · simp only [analyze_predictions_distribution, h1, h2]
  · intro s
    rw [byStar_fst, mem_sortKeys, List.mem_dedup]

theorem distribution_breakdowns_witness :
    analyze_predictions_distribution [⟨"5 stars", 1⟩] =
      some (byStar [5], byCategory ["positive"]) ∧
    (byCategory ["positive"]).map Prod.fst = ["negative", "neutral", "positive"] ∧
    ∀ s, s ∈ (byStar [5]).map Prod.fst ↔ s ∈ ([5] : List Nat) :=
  distribution_breakdowns [⟨"5 stars", 1⟩] [5] ["positive"]
    (by decide) (by decide) (by decide)

end SentimentEval
